import Mathlib

/-!
Shallow embedding of the Consultation Session Engine of the
consultoncall backend: the call state machine and settlement logic of
`src/services/callStateManager.js`, the availability coordinator of
`src/services/expertStatusManager.js`, and the stuck-call sweep and
internal end-call route of `src/routes/calls.js`.

Timestamps are milliseconds since epoch as `Nat`; JS `Date` subtraction
followed by `Math.floor(x / 1000)` becomes truncated `Nat` division.
Token balances are `Int` (JS numbers holding integer token amounts), so
the explicit source-level negative-balance clamps are representable.
-/

set_option autoImplicit false

namespace Consult

/-- Call status values: the CALL_STATES constant of callStateManager.js.
`ongoing` is the stored value of the CONNECTED state and `completed` the
stored value of the ENDED state (the constants map CONNECTED to the
string "ongoing" and ENDED to "completed" to match the Call model enum). -/
inductive CallStatus where
  | initiated
  | ringing
  | accepted
  | ongoing
  | completed
  | missed
  | rejected
  | failed
deriving DecidableEq, Repr, Fintype

/-- The string stored in the `status` field of a Call document for each
state (statuses are strings in MongoDB; queries compare these strings). -/
def statusStr : CallStatus → String
  | .initiated => "initiated"
  | .ringing => "ringing"
  | .accepted => "accepted"
  | .ongoing => "ongoing"
  | .completed => "completed"
  | .missed => "missed"
  | .rejected => "rejected"
  | .failed => "failed"

/-- The VALID_TRANSITIONS table of callStateManager.js: per source state,
the exhaustive list of legal destination states. -/
def validTransitions : CallStatus → List CallStatus
  | .initiated => [.ringing, .failed]
  | .ringing => [.accepted, .rejected, .missed, .failed]
  | .accepted => [.ongoing, .failed, .completed]
  | .ongoing => [.completed]
  | .completed => []
  | .missed => []
  | .rejected => []
  | .failed => []

/-- Terminal states per the spec and the table: settled (stored
"completed"), missed, rejected, failed. -/
def isTerminal : CallStatus → Bool
  | .completed => true
  | .missed => true
  | .rejected => true
  | .failed => true
  | _ => false

/-- A Call document (src/models/Call.js): caller and expert ids, status,
optional start/end timestamps, duration in seconds, the per-minute rate
frozen at creation, tokens spent, creation and update timestamps. -/
structure Call where
  id : Nat
  caller : Nat
  expert : Nat
  status : CallStatus
  startTime : Option Nat := none
  endTime : Option Nat := none
  duration : Nat := 0
  tokensPerMinute : Nat
  tokensSpent : Int := 0
  createdAt : Nat
  updatedAt : Nat := 0
deriving DecidableEq, Repr

/-- An Expert document (src/models/Expert.js), restricted to the fields
the engine reads and writes. -/
structure ExpertRec where
  isApproved : Bool := true
  tokensPerMinute : Nat
  isOnline : Bool := false
  isBusy : Bool := false
  currentCallId : Option Nat := none
  isAvailable : Bool := true
  lastSeen : Nat := 0
  totalCalls : Nat := 0
  totalMinutes : Nat := 0
  tokensEarned : Int := 0
  unclaimedTokens : Int := 0
deriving DecidableEq, Repr

/-- Transaction type enum of src/models/Transaction.js. -/
inductive TxType where
  | credit
  | debit
  | refund
  | claim
deriving DecidableEq, Repr

/-- A Transaction (ledger entry) document: the balance immediately
before and after the mutation, the amount, and the originating call. -/
structure Transaction where
  user : Nat
  type : TxType
  tokens : Int
  call : Option Nat
  tokensBefore : Int
  tokensAfter : Int
deriving DecidableEq, Repr

/-- Cache TTL of expertStatusManager.js: 5 minutes in milliseconds. -/
def CACHE_TTL : Nat := 5 * 60 * 1000

/-- The status payload computed by getExpertStatus and stored in the
status cache. The `status` string is the derived tri-state: offline if
not online; else busy if the busy flag is set or a call id is bound;
else online.  `isAvailable` embeds `expert.isAvailable !== false`. -/
structure StatusData where
  status : String
  isOnline : Bool
  isBusy : Bool
  currentCallId : Option Nat
  isAvailable : Bool
deriving DecidableEq, Repr

/-- One entry of the statusCache map: the cached payload and the time it
was written. -/
structure CacheEntry where
  data : StatusData
  timestamp : Nat
deriving DecidableEq, Repr

/-- The status payload a fresh database read of the expert produces
(the body of getExpertStatus after the cache check). -/
def statusOfExpert (e : ExpertRec) : StatusData :=
  { status :=
      if e.isOnline then
        if e.isBusy || e.currentCallId ≠ none then "busy" else "online"
      else "offline",
    isOnline := e.isOnline,
    isBusy := e.isBusy,
    currentCallId := e.currentCallId,
    isAvailable := e.isAvailable }

/-- getExpertStatus of expertStatusManager.js for one expert: when not
bypassing the cache and an unexpired entry exists, return the cached
payload unchanged; otherwise read the store, cache the fresh payload at
`now`, and return it.  Returns the payload and the updated cache slot. -/
def getExpertStatus (now : Nat) (bypassCache : Bool) (cache : Option CacheEntry)
    (e : ExpertRec) : StatusData × Option CacheEntry :=
  match bypassCache, cache with
  | false, some entry =>
      if now - entry.timestamp < CACHE_TTL then
        (entry.data, some entry)
      else
        let d := statusOfExpert e
        (d, some ⟨d, now⟩)
  | _, _ =>
      let d := statusOfExpert e
      (d, some ⟨d, now⟩)

/-- isExpertAvailable of expertStatusManager.js: reads the status via
getExpertStatus WITHOUT bypassing the cache, then tests
online ∧ not busy ∧ available. -/
def isExpertAvailable (now : Nat) (cache : Option CacheEntry) (e : ExpertRec) : Bool :=
  let s := (getExpertStatus now false cache e).1
  s.isOnline && !s.isBusy && s.isAvailable

/-- The availability the cache-bypassing read path yields
(getExpertStatus with bypassCache = true, then the same predicate). -/
def availabilityFreshRead (now : Nat) (cache : Option CacheEntry) (e : ExpertRec) : Bool :=
  let s := (getExpertStatus now true cache e).1
  s.isOnline && !s.isBusy && s.isAvailable

/-- setExpertBusy of expertStatusManager.js: sets the busy flag; binds
the call id only when busy and a call id was passed, clearing it
otherwise; forces the expert online when setting busy; stamps lastSeen. -/
def setExpertBusy (now : Nat) (e : ExpertRec) (busy : Bool) (callId : Option Nat) : ExpertRec :=
  { e with
    isBusy := busy,
    currentCallId := if busy ∧ callId ≠ none then callId else none,
    isOnline := if busy then true else e.isOnline,
    lastSeen := now }

/-- releaseExpert of expertStatusManager.js: setExpertBusy(id, false, null). -/
def releaseExpertRec (now : Nat) (e : ExpertRec) : ExpertRec :=
  setExpertBusy now e false none

/-- The status strings handleExpertReconnect queries for when looking
for active calls bound to the reconnecting expert. -/
def reconnectActiveStatuses : List String := ["ringing", "connected", "accepted"]

/-- handleExpertReconnect of expertStatusManager.js: finds the calls
bound to the expert whose stored status string is in
reconnectActiveStatuses; if any exist and the expert is not already
busy, marks the expert busy bound to the first such call; finally
stamps lastSeen. -/
def handleExpertReconnect (now : Nat) (expertId : Nat) (e : ExpertRec)
    (calls : List Call) : ExpertRec :=
  let activeCalls := calls.filter fun c =>
    c.expert == expertId && reconnectActiveStatuses.contains (statusStr c.status)
  let e1 :=
    match activeCalls.head? with
    | some c0 => if !e.isBusy then setExpertBusy now e true (some c0.id) else e
    | none => e
  { e1 with lastSeen := now }

/-- The engine state an end-of-call operation reads and writes: the call
document, the token balance of the caller, and the expert document. -/
structure EngineState where
  call : Call
  callerTokens : Int
  expert : ExpertRec
deriving DecidableEq, Repr

/-- The JSON payload CallStateManager.endCall returns: either the
never-connected shape (success with tokensSpent only) or the settlement
summary. -/
inductive EndResponse where
  | notConnected (tokensSpent : Int)
  | settled (duration minutes : Nat) (tokensSpent expertTokens callerBalance : Int)
deriving DecidableEq, Repr

/-- The effect of CallStateManager.endCall: updated call, caller balance
and expert, the ledger entry written (none on the never-connected path),
and the returned payload. -/
structure EndOutcome where
  call : Call
  callerTokens : Int
  expert : ExpertRec
  newTx : Option Transaction
  res : EndResponse
deriving DecidableEq, Repr

/-- CallStateManager.endCall.  If the call is not in the connected
state, it is marked completed with a fresh endTime, the expert is
released, no ledger entry is written, and the payload carries
tokensSpent 0.  Otherwise: duration is the floored seconds between now
and startTime; minutes is max(1, ceil(duration/60)); the nominal
tokensSpent (minutes times the frozen rate) is recorded on the call; the
debit is clamped to the balance of the caller; one debit ledger entry records
the clamped amount with the balance before and after; the expert is
credited floor(0.9 times the clamped debit) — `Math.floor(x * 0.9)`
agrees with floor(9x/10) on these integer magnitudes, written
`Int.fdiv (9 * x) 10` — and released; the payload reports the clamped
amount as tokensSpent. -/
def endCall (now : Nat) (s : EngineState) : EndOutcome :=
  if s.call.status ≠ CallStatus.ongoing then
    { call := { s.call with status := .completed, endTime := some now },
      callerTokens := s.callerTokens,
      expert := releaseExpertRec now s.expert,
      newTx := none,
      res := .notConnected 0 }
  else
    let startT := s.call.startTime.getD now
    let durationSeconds := (now - startT) / 1000
    let minutes := max 1 ((durationSeconds + 59) / 60)
    let tokensSpent : Int := (minutes * s.call.tokensPerMinute : Nat)
    let call1 : Call :=
      { s.call with
        endTime := some now,
        duration := durationSeconds,
        tokensSpent := tokensSpent,
        status := .completed }
    let callerTokensBefore := s.callerTokens
    let actualDeduction := min tokensSpent s.callerTokens
    let updatedTokens := s.callerTokens - actualDeduction
    let finalTokens := if updatedTokens < 0 then 0 else updatedTokens
    let tx : Transaction :=
      { user := s.call.caller,
        type := .debit,
        tokens := actualDeduction,
        call := some s.call.id,
        tokensBefore := callerTokensBefore,
        tokensAfter := finalTokens }
    let expertTokens := Int.fdiv (9 * actualDeduction) 10
    let expert1 : ExpertRec :=
      { s.expert with
        totalCalls := s.expert.totalCalls + 1,
        totalMinutes := s.expert.totalMinutes + minutes,
        tokensEarned := s.expert.tokensEarned + expertTokens,
        unclaimedTokens := s.expert.unclaimedTokens + expertTokens,
        isBusy := false,
        currentCallId := none }
    { call := call1,
      callerTokens := finalTokens,
      expert := expert1,
      newTx := some tx,
      res := .settled durationSeconds minutes actualDeduction expertTokens finalTokens }

/-- The payload CallStateManager.handleDisconnect returns: the delegated
endCall payload when the call was connected, or the cleanup shape. -/
inductive DiscResponse where
  | ended (r : EndResponse)
  | failedCleanup
deriving DecidableEq, Repr

/-- The effect of CallStateManager.handleDisconnect. -/
structure DiscOutcome where
  call : Call
  callerTokens : Int
  expert : ExpertRec
  newTx : Option Transaction
  res : DiscResponse
deriving DecidableEq, Repr

/-- CallStateManager.handleDisconnect: a connected call is delegated to
endCall; any other call is marked failed with a fresh endTime and the
expert is released, with no billing. -/
def handleDisconnect (now : Nat) (s : EngineState) : DiscOutcome :=
  if s.call.status = CallStatus.ongoing then
    let o := endCall now s
    { call := o.call, callerTokens := o.callerTokens, expert := o.expert,
      newTx := o.newTx, res := .ended o.res }
  else
    { call := { s.call with status := .failed, endTime := some now },
      callerTokens := s.callerTokens,
      expert := releaseExpertRec now s.expert,
      newTx := none,
      res := .failedCleanup }

/-- CallStateManager.handleTimeout: only a call still in ringing or
initiated is marked missed (with endTime set) and its expert released;
any other state is left untouched. -/
def handleTimeout (now : Nat) (s : EngineState) : EngineState :=
  if s.call.status = CallStatus.ringing ∨ s.call.status = CallStatus.initiated then
    { call := { s.call with status := .missed, endTime := some now },
      callerTokens := s.callerTokens,
      expert := releaseExpertRec now s.expert }
  else s

/-- The typed failure of CallStateManager.transitionState. -/
inductive TransitionError where
  | invalidTransition (src dst : CallStatus)
deriving DecidableEq, Repr

/-- CallStateManager.transitionState: the requested destination must be
in the VALID_TRANSITIONS row of the current state, else the call is left
unchanged and an error naming source and requested target is raised. -/
def transitionState (c : Call) (newState : CallStatus) : Except TransitionError Call :=
  if newState ∈ validTransitions c.status then
    Except.ok { c with status := newState }
  else
    Except.error (.invalidTransition c.status newState)

/-- CallStateManager.connectCall: the call (whatever its current state)
is stamped with startTime = now and moved to the connected state.  The
function performs no transition validation. -/
def connectCall (now : Nat) (c : Call) : Call :=
  { c with status := .ongoing, startTime := some now }

/-- Typed business failures of CallStateManager.initiateCall (the
user/expert lookup failures are elided: the embedding takes the
documents directly). -/
inductive InitError where
  | expertNotApproved
  | expertUnavailable
  | insufficientBalance
deriving DecidableEq, Repr

/-- CallStateManager.initiateCall: requires the expert approved, the
availability gate isExpertAvailable (the cached read), and a caller
balance of at least 5 minutes at the rate of the expert; on success creates a
call in the initiated state with the rate of the expert frozen on it. -/
def initiateCall (now : Nat) (newId : Nat) (callerId : Nat) (expertId : Nat)
    (userTokens : Int) (e : ExpertRec) (cache : Option CacheEntry) :
    Except InitError Call :=
  if !e.isApproved then
    Except.error .expertNotApproved
  else if !(isExpertAvailable now cache e) then
    Except.error .expertUnavailable
  else if userTokens < (e.tokensPerMinute * 5 : Nat) then
    Except.error .insufficientBalance
  else
    Except.ok
      { id := newId, caller := callerId, expert := expertId,
        status := .initiated, tokensPerMinute := e.tokensPerMinute,
        createdAt := now }

/-- First updateMany of the stuck-call cleanup in GET /active
(src/routes/calls.js): a call still ringing whose creation is older than
30 seconds is marked missed with endTime = now. -/
def sweepRinging (now : Nat) (c : Call) : Call :=
  if c.status = CallStatus.ringing ∧ c.createdAt < now - 30 * 1000 then
    { c with status := .missed, endTime := some now }
  else c

/-- Second updateMany of the stuck-call cleanup: a call still accepted
whose last update is older than 30 seconds is marked failed. -/
def sweepAccepted (now : Nat) (c : Call) : Call :=
  if c.status = CallStatus.accepted ∧ c.updatedAt < now - 30 * 1000 then
    { c with status := .failed, endTime := some now }
  else c

/-- Third updateMany of the stuck-call cleanup: it queries the literal
status string "connected" (with a 5-minute staleness bound), which is
not a value the Call status enum stores. -/
def sweepConnectedStr (now : Nat) (c : Call) : Call :=
  if statusStr c.status = "connected" ∧ c.updatedAt < now - 5 * 60 * 1000 then
    { c with status := .failed, endTime := some now }
  else c

/-- The persistent store as the GET /active handler sees it: the Call
collection and the Expert collection (keyed by expert id). -/
structure Store where
  calls : List Call
  experts : List (Nat × ExpertRec)
deriving DecidableEq, Repr

/-- The stuck-call cleanup block at the top of GET /active: the three
updateMany operations on the Call collection, in order.  The handler
issues no write against the Expert collection and touches no balance. -/
def activeStuckCleanup (now : Nat) (st : Store) : Store :=
  { st with
    calls := ((st.calls.map (sweepRinging now)).map (sweepAccepted now)).map
      (sweepConnectedStr now) }

/-- The JSON payload of POST /internal/end-call/:callId: the idempotent
already-ended reply (echoing the stored status, duration and
tokensSpent), the marked-failed cleanup reply, or the settlement reply. -/
inductive InternalEndResponse where
  | alreadyEnded (status : CallStatus) (duration : Nat) (tokensSpent : Int)
  | markedFailed
  | endedBySystem (duration minutes : Nat) (tokensSpent : Int)
deriving DecidableEq, Repr

/-- The effect of POST /internal/end-call/:callId. -/
structure InternalEndOutcome where
  call : Call
  callerTokens : Int
  expert : ExpertRec
  newTx : Option Transaction
  res : InternalEndResponse
deriving DecidableEq, Repr

/-- POST /internal/end-call/:callId (src/routes/calls.js).  A call
already completed, failed or missed is returned as-is with its stored
settlement data and nothing is written.  A call whose status string is
neither "ongoing" nor "connected" (i.e. initiated, ringing, accepted or
rejected) is marked failed and the busy/bound fields of the expert cleared.
Otherwise the route settles: it records the nominal tokensSpent on the
call and saves it, then clamps the in-memory tokensSpent to the available caller
balance (the clamped value is what the ledger entry and the reply carry;
the call document was already saved with the nominal value and is not
re-saved), debits the caller with a floor at zero, and credits the
expert floor(0.9 times the clamped amount). -/
def internalEndCall (now : Nat) (s : EngineState) : InternalEndOutcome :=
  if s.call.status = CallStatus.completed ∨ s.call.status = CallStatus.failed ∨
      s.call.status = CallStatus.missed then
    { call := s.call, callerTokens := s.callerTokens, expert := s.expert,
      newTx := none,
      res := .alreadyEnded s.call.status s.call.duration s.call.tokensSpent }
  else if statusStr s.call.status ≠ "ongoing" ∧ statusStr s.call.status ≠ "connected" then
    { call := { s.call with status := .failed, endTime := some now },
      callerTokens := s.callerTokens,
      expert := { s.expert with isBusy := false, currentCallId := none },
      newTx := none,
      res := .markedFailed }
  else
    let startT := s.call.startTime.getD s.call.createdAt
    let durationSeconds := (now - startT) / 1000
    let minutes := max 1 ((durationSeconds + 59) / 60)
    let nominal : Int := (minutes * s.call.tokensPerMinute : Nat)
    let savedCall : Call :=
      { s.call with
        endTime := some now,
        duration := durationSeconds,
        status := .completed,
        tokensSpent := nominal }
    let callerTokensBefore := s.callerTokens
    let spent := if s.callerTokens < nominal then s.callerTokens else nominal
    let afterTokens := s.callerTokens - spent
    let finalTokens := if afterTokens < 0 then 0 else afterTokens
    let tx : Transaction :=
      { user := s.call.caller,
        type := .debit,
        tokens := spent,
        call := some s.call.id,
        tokensBefore := callerTokensBefore,
        tokensAfter := finalTokens }
    let expertTokens := Int.fdiv (9 * spent) 10
    let expert1 : ExpertRec :=
      { s.expert with
        isBusy := false,
        currentCallId := none,
        totalCalls := s.expert.totalCalls + 1,
        totalMinutes := s.expert.totalMinutes + minutes,
        tokensEarned := s.expert.tokensEarned + expertTokens,
        unclaimedTokens := s.expert.unclaimedTokens + expertTokens }
    { call := savedCall,
      callerTokens := finalTokens,
      expert := expert1,
      newTx := some tx,
      res := .endedBySystem durationSeconds minutes spent }

/-! Theorems settling the claims. -/

/-- Claim C10: setExpertBusy with busy = true leaves the record online,
busy and with the call bound, even when the expert was offline
beforehand; setExpertBusy with busy = false always clears the bound call
id; no record produced by setExpertBusy has busy set while offline; and
releaseExpert is exactly setExpertBusy with busy = false and no call. -/
theorem c10_set_busy_forces_online (now : Nat) (e : ExpertRec) (cid : Nat) :
    (setExpertBusy now e true (some cid)).isOnline = true ∧
    (setExpertBusy now e true (some cid)).isBusy = true ∧
    (setExpertBusy now e true (some cid)).currentCallId = some cid ∧
    (∀ c : Option Nat, (setExpertBusy now e false c).currentCallId = none) ∧
    (∀ (b : Bool) (c : Option Nat),
      ((setExpertBusy now e b c).isBusy && !(setExpertBusy now e b c).isOnline) = false) ∧
    releaseExpertRec now e = setExpertBusy now e false none := by
  refine ⟨rfl, rfl, by simp [setExpertBusy], fun c => by simp [setExpertBusy],
    fun b c => ?_, rfl⟩
  cases b <;> simp [setExpertBusy]

/-- Concrete session in the terminal completed state, already settled
with duration 95 seconds and tokensSpent 40. -/
def callC6 : Call :=
  { id := 1, caller := 2, expert := 3, status := .completed,
    startTime := some 0, endTime := some 95000, duration := 95,
    tokensPerMinute := 20, tokensSpent := 40, createdAt := 0 }

/-- Claim C6 (code-bug evaluation): connectCall performs no transition
validation.  On a session in the terminal completed state it succeeds,
moving the status to ongoing and stamping startTime, even though the
transition table of the same module has no transition out of completed and
transitionState rejects the same request with an error naming source and
target. -/
theorem c6_connect_skips_validation :
    (connectCall 5000 callC6).status = CallStatus.ongoing ∧
    (connectCall 5000 callC6).startTime = some 5000 ∧
    CallStatus.ongoing ∉ validTransitions CallStatus.completed ∧
    transitionState callC6 CallStatus.ongoing =
      Except.error (.invalidTransition CallStatus.completed CallStatus.ongoing) := by
  refine ⟨rfl, rfl, by decide, ?_⟩
  simp [transitionState, callC6, validTransitions]

/-- Session in the terminal completed state, for the C7 evaluation. -/
def stateC7a : EngineState :=
  { call := { id := 1, caller := 2, expert := 3, status := .completed,
              endTime := some 95000, duration := 95, tokensPerMinute := 20,
              tokensSpent := 40, createdAt := 0 },
    callerTokens := 60,
    expert := { tokensPerMinute := 20, isOnline := true } }

/-- Session in the terminal missed state, for the C7 evaluation. -/
def stateC7b : EngineState :=
  { call := { id := 2, caller := 2, expert := 3, status := .missed,
              endTime := some 95000, tokensPerMinute := 20, createdAt := 0 },
    callerTokens := 60,
    expert := { tokensPerMinute := 20, isOnline := true } }

/-- Claim C7 (code-bug evaluation): terminal states do have outgoing
transitions in the code.  handleDisconnect moves a completed session to
failed, and endCall moves a missed session to completed, although the
transition table declares both states terminal with no legal
destinations. -/
theorem c7_terminal_states_escape :
    isTerminal stateC7a.call.status = true ∧
    isTerminal stateC7b.call.status = true ∧
    (handleDisconnect 100000 stateC7a).call.status = CallStatus.failed ∧
    CallStatus.failed ≠ CallStatus.completed ∧
    (endCall 100000 stateC7b).call.status = CallStatus.completed ∧
    CallStatus.completed ≠ CallStatus.missed ∧
    validTransitions CallStatus.completed = [] ∧
    validTransitions CallStatus.missed = [] := by
  decide

/-- Reconnecting expert, not busy, for the C9 evaluation. -/
def expertC9 : ExpertRec := { tokensPerMinute := 10, isOnline := true, isBusy := false }

/-- A connected (status string "ongoing") session bound to expert 9. -/
def callC9 : Call :=
  { id := 5, caller := 2, expert := 9, status := .ongoing,
    startTime := some 0, tokensPerMinute := 10, createdAt := 0 }

/-- Claim C9 (code-bug evaluation): handleExpertReconnect queries the
status strings "ringing", "connected" and "accepted".  No storable
status is the string "connected" (the connected state is stored as
"ongoing"), so an expert with a bound session in the non-terminal
ongoing state is left not busy and with no call bound by the reconnect
handler; "initiated" is likewise missing from the query. -/
theorem c9_reconnect_misses_ongoing :
    isTerminal callC9.status = false ∧
    callC9.expert = 9 ∧
    (handleExpertReconnect 1000 9 expertC9 [callC9]).isBusy = false ∧
    (handleExpertReconnect 1000 9 expertC9 [callC9]).currentCallId = none ∧
    statusStr CallStatus.ongoing ∉ reconnectActiveStatuses ∧
    statusStr CallStatus.initiated ∉ reconnectActiveStatuses ∧
    isTerminal CallStatus.initiated = false ∧
    (∀ s : CallStatus, statusStr s ≠ "connected") := by
  decide

/-- A session already settled: completed with recorded duration 95
seconds and recorded tokensSpent 40. -/
def callC1 : Call :=
  { id := 1, caller := 2, expert := 3, status := .completed,
    startTime := some 0, endTime := some 95000, duration := 95,
    tokensPerMinute := 20, tokensSpent := 40, createdAt := 0 }

/-- The engine state around callC1 at the second End. -/
def stateC1 : EngineState :=
  { call := callC1, callerTokens := 60,
    expert := { tokensPerMinute := 20, isOnline := true } }

/-- Claim C1 counterexample: calling endCall on the already-settled
session callC1 (recorded duration 95, recorded tokensSpent 40) does not
return the existing settlement data: the payload is notConnected with
tokensSpent 0, and the stored endTime is overwritten with the new time.
No second ledger entry is written (that part of the claim holds). -/
theorem c1_counterexample :
    isTerminal callC1.status = true ∧
    callC1.tokensSpent = 40 ∧
    callC1.duration = 95 ∧
    (endCall 100000 stateC1).res = EndResponse.notConnected 0 ∧
    (0 : Int) ≠ callC1.tokensSpent ∧
    (endCall 100000 stateC1).call.endTime = some 100000 ∧
    (endCall 100000 stateC1).newTx = none := by
  decide

/-- Claim C1 (amended): endCall on a session already in a terminal state
creates no ledger entry, leaves the caller balance and the recorded
duration and tokensSpent unchanged, and does not re-bill — but it
returns tokensSpent 0 instead of the existing settlement data, forces
the status to completed and overwrites endTime.  The internal end-call
route, by contrast, is idempotent for completed, failed and missed
sessions, returning the stored settlement data and writing nothing (a
rejected session is not covered by its idempotency check). -/
theorem c1_end_terminal_amended (now : Nat) (s : EngineState)
    (h : isTerminal s.call.status = true) :
    (endCall now s).newTx = none ∧
    (endCall now s).res = EndResponse.notConnected 0 ∧
    (endCall now s).callerTokens = s.callerTokens ∧
    (endCall now s).call.status = CallStatus.completed ∧
    (endCall now s).call.endTime = some now ∧
    (endCall now s).call.tokensSpent = s.call.tokensSpent ∧
    (endCall now s).call.duration = s.call.duration ∧
    (s.call.status = CallStatus.completed ∨ s.call.status = CallStatus.failed ∨
        s.call.status = CallStatus.missed →
      internalEndCall now s =
        { call := s.call, callerTokens := s.callerTokens, expert := s.expert,
          newTx := none,
          res := .alreadyEnded s.call.status s.call.duration s.call.tokensSpent }) := by
  have hne : s.call.status ≠ CallStatus.ongoing := by
    intro hs
    rw [hs] at h
    simp [isTerminal] at h
  have hend : endCall now s =
      { call := { s.call with status := .completed, endTime := some now },
        callerTokens := s.callerTokens,
        expert := releaseExpertRec now s.expert,
        newTx := none,
        res := .notConnected 0 } := by
    simp only [endCall, if_pos hne]
  rw [hend]
  refine ⟨rfl, rfl, rfl, rfl, rfl, rfl, rfl, ?_⟩
  intro hcase
  simp only [internalEndCall, if_pos hcase]

/-- Claim C1 amended-claim witness: the amended theorem applied to the
concrete terminal state stateC1. -/
theorem c1_witness :
    isTerminal stateC1.call.status = true ∧
    (endCall 100000 stateC1).newTx = none := by
  exact ⟨by decide, (c1_end_terminal_amended 100000 stateC1 (by decide)).1⟩

/-- Claim C2: a session settled from the connected state by endCall has
its recorded tokensSpent equal to max(1, ceil(duration/60)) times the
rate frozen on the call, where duration is the floored seconds between
now and startTime (ceil(d/60) is written (d + 59) / 60 over Nat); a
session that never reached the connected state (so its tokensSpent is
still the creation default 0, endCall not touching it on that path) is
settled with tokensSpent 0; and initiateCall freezes the current rate of the expert on the new call with tokensSpent 0. -/
theorem c2_token_formula (now startT : Nat) (s : EngineState)
    (h1 : s.call.status = CallStatus.ongoing)
    (h2 : s.call.startTime = some startT) :
    (endCall now s).call.tokensSpent =
      ((max 1 (((now - startT) / 1000 + 59) / 60)) * s.call.tokensPerMinute : Nat) ∧
    (∀ s2 : EngineState, s2.call.status ≠ CallStatus.ongoing →
      s2.call.tokensSpent = 0 → (endCall now s2).call.tokensSpent = 0) ∧
    (∀ (now2 newId callerId expertId : Nat) (tok : Int) (e : ExpertRec)
        (cache : Option CacheEntry) (c : Call),
      initiateCall now2 newId callerId expertId tok e cache = Except.ok c →
      c.tokensPerMinute = e.tokensPerMinute ∧ c.tokensSpent = 0) := by
  refine ⟨?_, ?_, ?_⟩
  · have hno : ¬ s.call.status ≠ CallStatus.ongoing := by simp [h1]
    simp only [endCall, if_neg hno, h2, Option.getD_some]
  · intro s2 hs2 hz
    simp only [endCall, if_pos hs2]
    exact hz
  · intro now2 newId callerId expertId tok e cache c hok
    unfold initiateCall at hok
    split at hok
    · cases hok
    · split at hok
      · cases hok
      · split at hok
        · cases hok
        · simp only [Except.ok.injEq] at hok
          subst hok
          exact ⟨rfl, rfl⟩

/-- A connected session with rate 20, started at time 0, caller balance
100, matching the 95-second scenario of the spec. -/
def stateC2 : EngineState :=
  { call := { id := 1, caller := 2, expert := 3, status := .ongoing,
              startTime := some 0, tokensPerMinute := 20, createdAt := 0 },
    callerTokens := 100,
    expert := { tokensPerMinute := 20, isOnline := true, isBusy := true,
                currentCallId := some 1 } }

/-- Claim C2 witness: the formula theorem applied to stateC2 after 95
seconds gives recorded tokensSpent 40 (minutes = 2, rate = 20). -/
theorem c2_witness :
    stateC2.call.status = CallStatus.ongoing ∧
    stateC2.call.startTime = some 0 ∧
    (endCall 95000 stateC2).call.tokensSpent =
      ((max 1 (((95000 - 0) / 1000 + 59) / 60)) * stateC2.call.tokensPerMinute : Nat) ∧
    (endCall 95000 stateC2).call.tokensSpent = 40 := by
  refine ⟨rfl, rfl, (c2_token_formula 95000 0 stateC2 rfl rfl).1, by decide⟩

/-- Claim C3: the debit endCall performs against the caller balance is
clamped to the available balance: the resulting balance is
before - min(requested, before), never negative, and the single ledger
entry records the clamped amount (not the requested one) together with
the balance immediately before and after the mutation. -/
theorem c3_debit_clamped (now startT : Nat) (s : EngineState)
    (h1 : s.call.status = CallStatus.ongoing)
    (h2 : s.call.startTime = some startT) :
    0 ≤ (endCall now s).callerTokens ∧
    (endCall now s).callerTokens =
      s.callerTokens -
        min (((max 1 (((now - startT) / 1000 + 59) / 60)) * s.call.tokensPerMinute : Nat) : Int)
          s.callerTokens ∧
    (endCall now s).newTx = some
      { user := s.call.caller, type := .debit,
        tokens :=
          min (((max 1 (((now - startT) / 1000 + 59) / 60)) * s.call.tokensPerMinute : Nat) : Int)
            s.callerTokens,
        call := some s.call.id,
        tokensBefore := s.callerTokens,
        tokensAfter := (endCall now s).callerTokens } := by
  have hno : ¬ s.call.status ≠ CallStatus.ongoing := by simp [h1]
  have hif : ¬ (s.callerTokens -
      min (((max 1 (((now - startT) / 1000 + 59) / 60)) * s.call.tokensPerMinute : Nat) : Int)
        s.callerTokens < 0) := by
    have := min_le_right
      (((max 1 (((now - startT) / 1000 + 59) / 60)) * s.call.tokensPerMinute : Nat) : Int)
      s.callerTokens
    omega
  simp only [endCall, if_neg hno, h2, Option.getD_some, if_neg hif]
  refine ⟨by omega, by trivial, by trivial⟩

/-- A connected session with rate 20 whose caller holds only 15 tokens:
a 70-second call requests 40 tokens, more than the balance. -/
def stateC3 : EngineState :=
  { call := { id := 1, caller := 2, expert := 3, status := .ongoing,
              startTime := some 0, tokensPerMinute := 20, createdAt := 0 },
    callerTokens := 15,
    expert := { tokensPerMinute := 20, isOnline := true, isBusy := true,
                currentCallId := some 1 } }

/-- Claim C3 witness: the clamped-debit theorem applied to stateC3 after
70 seconds; the requested 40 tokens are clamped to the 15 available and
the balance ends at 0, not negative. -/
theorem c3_witness :
    stateC3.call.status = CallStatus.ongoing ∧
    stateC3.call.startTime = some 0 ∧
    0 ≤ (endCall 70000 stateC3).callerTokens ∧
    (endCall 70000 stateC3).callerTokens = 0 := by
  refine ⟨rfl, rfl, (c3_debit_clamped 70000 0 stateC3 rfl rfl).1, by decide⟩

/-- Claim C4: when a connected session settles, the earned and
unclaimed token counters are each credited exactly
floor(0.9 times the actual clamped debit) — floor(9d/10), written
Int.fdiv (9 * d) 10 — where the actual debit is min(nominal tokensSpent,
caller balance); and in the concrete scenario of the spec (balance 15, rate
20 per minute, 70 seconds connected) the debit is 15, the caller
balance becomes 0, and the expert is credited 13. -/
theorem c4_expert_credit (now startT : Nat) (s : EngineState)
    (h1 : s.call.status = CallStatus.ongoing)
    (h2 : s.call.startTime = some startT) :
    (endCall now s).expert.unclaimedTokens =
      s.expert.unclaimedTokens +
        Int.fdiv
          (9 * min (((max 1 (((now - startT) / 1000 + 59) / 60)) * s.call.tokensPerMinute : Nat) : Int)
            s.callerTokens) 10 ∧
    (endCall now s).expert.tokensEarned =
      s.expert.tokensEarned +
        Int.fdiv
          (9 * min (((max 1 (((now - startT) / 1000 + 59) / 60)) * s.call.tokensPerMinute : Nat) : Int)
            s.callerTokens) 10 ∧
    (endCall 70000 stateC3).res = EndResponse.settled 70 2 15 13 0 ∧
    (endCall 70000 stateC3).callerTokens = 0 ∧
    (endCall 70000 stateC3).expert.unclaimedTokens = 13 := by
  have hno : ¬ s.call.status ≠ CallStatus.ongoing := by simp [h1]
  simp only [endCall, if_neg hno, h2, Option.getD_some]
  refine ⟨by trivial, by trivial, by decide, by decide, by decide⟩

/-- Claim C4 witness: the credit theorem applied to stateC3 after 70
seconds (so the scenario conjuncts are discharged at the same input the
general formula is instantiated at). -/
theorem c4_witness :
    stateC3.call.status = CallStatus.ongoing ∧
    stateC3.call.startTime = some 0 ∧
    (endCall 70000 stateC3).res = EndResponse.settled 70 2 15 13 0 := by
  refine ⟨rfl, rfl, (c4_expert_credit 70000 0 stateC3 rfl rfl).2.2.1⟩

/-- An expert currently busy on call 1 (online, available). -/
def expertC5 : ExpertRec :=
  { tokensPerMinute := 20, isOnline := true, isBusy := true, currentCallId := some 1 }

/-- The cache slot after a read of the status of expertC5 at time 0 (a
listing endpoint consulting getExpertStatus caches the busy payload). -/
def cacheC5 : Option CacheEntry := (getExpertStatus 0 false none expertC5).2

/-- The connected call occupying expertC5. -/
def callC5 : Call :=
  { id := 1, caller := 2, expert := 3, status := .ongoing,
    startTime := some 0, tokensPerMinute := 20, createdAt := 0 }

/-- Store record of expertC5 after endCall settles call 1 at 70 seconds:
endCall clears the busy flag and bound call directly in the store
without touching the status cache. -/
def expertC5after : ExpertRec :=
  (endCall 70000 { call := callC5, callerTokens := 100, expert := expertC5 }).expert

/-- Claim C5 counterexample: at the Initiate gate 70 seconds after the
cache entry was taken (well within the 5-minute TTL), the cached read
path isExpertAvailable still reports the expert unavailable while the
cache-bypassing read path reports the freshly-settled expert available:
the two paths disagree, and the gate returns the cached value. -/
theorem c5_counterexample :
    isExpertAvailable 70000 cacheC5 expertC5after = false ∧
    availabilityFreshRead 70000 cacheC5 expertC5after = true ∧
    expertC5after.isOnline = true ∧
    expertC5after.isBusy = false ∧
    expertC5after.isAvailable = true := by
  decide

/-- Claim C5 (amended): isExpertAvailable — the availability gate used
by Initiate — reads through the status cache rather than bypassing it;
it agrees with the cache-bypassing fresh read whenever the expert has no
unexpired cache entry (no entry, or one at least CACHE_TTL old), but an
unexpired entry is returned as-is, so a stale entry surviving a direct
store write (such as the direct expert update of endCall, which does not invalidate
the cache) makes the gate disagree with the store for up to the TTL. -/
theorem c5_available_amended (now : Nat) (cache : Option CacheEntry) (e : ExpertRec)
    (h : ∀ entry, cache = some entry → CACHE_TTL ≤ now - entry.timestamp) :
    isExpertAvailable now cache e = availabilityFreshRead now cache e := by
  cases cache with
  | none => rfl
  | some entry =>
      have hexp := h entry rfl
      simp only [isExpertAvailable, availabilityFreshRead, getExpertStatus,
        if_neg (not_lt.mpr hexp)]

/-- Claim C5 amended-claim witness: with an empty cache slot the two
read paths agree on a concrete expert. -/
theorem c5_witness :
    isExpertAvailable 0 none expertC5 = availabilityFreshRead 0 none expertC5 :=
  c5_available_amended 0 none expertC5 (fun _ h => Option.noConfusion h)

/-- A call that has been ringing since time 0 (40 seconds before the
sweep runs), bound to expert 7. -/
def callC8 : Call :=
  { id := 4, caller := 2, expert := 7, status := .ringing,
    tokensPerMinute := 10, createdAt := 0 }

/-- Record of expert 7 while callC8 rings: busy with the call bound. -/
def expertC8 : ExpertRec :=
  { tokensPerMinute := 10, isOnline := true, isBusy := true, currentCallId := some 4 }

/-- The store the GET /active sweep runs against at time 40000. -/
def storeC8 : Store := { calls := [callC8], experts := [(7, expertC8)] }

/-- Claim C8 counterexample: the stuck-call sweep at 40 seconds marks
the 40-second-old ringing call missed and bills nothing, but the Expert
collection is returned untouched: expert 7 is still busy with the now
missed call bound — the sweep does not release the expert and does not
route through the End/timeout path. -/
theorem c8_counterexample :
    (activeStuckCleanup 40000 storeC8).calls =
      [{ callC8 with status := CallStatus.missed, endTime := some 40000 }] ∧
    (activeStuckCleanup 40000 storeC8).experts = [(7, expertC8)] ∧
    expertC8.isBusy = true ∧
    expertC8.currentCallId = some 4 ∧
    callC8.tokensSpent = 0 := by
  decide

/-- Claim C8 (amended): for every session ringing for more than 30
seconds, the GET /active stuck-call sweep marks it missed with endTime
set and its recorded tokensSpent unchanged (no billing), but does so by
direct updateMany rather than through the End/timeout path and leaves
the Expert collection untouched — the expert is not released by the
sweep.  handleTimeout, when invoked on a ringing session, does mark it
missed, release the expert and leave the caller balance unchanged. -/
theorem c8_sweep_amended (now : Nat) (st : Store) (c : Call)
    (h1 : c ∈ st.calls) (h2 : c.status = CallStatus.ringing)
    (h3 : c.createdAt < now - 30 * 1000) :
    ({ c with status := CallStatus.missed, endTime := some now } : Call) ∈
      (activeStuckCleanup now st).calls ∧
    ({ c with status := CallStatus.missed, endTime := some now } : Call).tokensSpent =
      c.tokensSpent ∧
    (activeStuckCleanup now st).experts = st.experts ∧
    (∀ (now2 : Nat) (s2 : EngineState), s2.call.status = CallStatus.ringing →
      (handleTimeout now2 s2).call.status = CallStatus.missed ∧
      (handleTimeout now2 s2).expert.isBusy = false ∧
      (handleTimeout now2 s2).expert.currentCallId = none ∧
      (handleTimeout now2 s2).callerTokens = s2.callerTokens) := by
  refine ⟨?_, rfl, rfl, ?_⟩
  · have e1 : sweepRinging now c =
        { c with status := CallStatus.missed, endTime := some now } := by
      simp [sweepRinging, h2, h3]
    have e2 : sweepAccepted now ({ c with status := CallStatus.missed, endTime := some now } : Call) =
        { c with status := CallStatus.missed, endTime := some now } := by
      simp [sweepAccepted]
    have e3 : sweepConnectedStr now ({ c with status := CallStatus.missed, endTime := some now } : Call) =
        { c with status := CallStatus.missed, endTime := some now } := by
      simp [sweepConnectedStr, statusStr]
    have hmem := List.mem_map_of_mem (sweepConnectedStr now)
      (List.mem_map_of_mem (sweepAccepted now)
        (List.mem_map_of_mem (sweepRinging now) h1))
    rw [e1, e2, e3] at hmem
    exact hmem
  · intro now2 s2 hs2
    have hcond : s2.call.status = CallStatus.ringing ∨ s2.call.status = CallStatus.initiated :=
      Or.inl hs2
    simp only [handleTimeout, if_pos hcond, releaseExpertRec, setExpertBusy]
    refine ⟨by trivial, by trivial, by simp, by trivial⟩

/-- Claim C8 amended-claim witness: the amended sweep theorem applied to
the concrete store storeC8 at time 40000. -/
theorem c8_witness :
    callC8 ∈ storeC8.calls ∧
    callC8.status = CallStatus.ringing ∧
    callC8.createdAt < 40000 - 30 * 1000 ∧
    ({ callC8 with status := CallStatus.missed, endTime := some 40000 } : Call) ∈
      (activeStuckCleanup 40000 storeC8).calls := by
  refine ⟨by decide, rfl, by decide,
    (c8_sweep_amended 40000 storeC8 callC8 (by decide) rfl (by decide)).1⟩

end Consult
